import Mathlib

/-!
Shallow embedding of `src/app.js` (a contact-submission Express app).

The app validates a submitted contact with a zod schema `contatoSchema`
(fields `nome`, `email`, `telefone`), persists valid contacts through
`Contato.create`, and lists them via `Contato.findAll`.  Request bodies are
modelled as association lists of JSON values; the store, the access-log file
and the console are modelled as explicit state; the outcome of the external
store calls (`create` / `findAll`) and of the access-log append are passed in
as parameters, since they are performed by external collaborators.
-/

namespace ContatoApp

/-- A JSON value as delivered by `express.json()` / `express.urlencoded()`
for a single field of the request body. -/
inductive JValue where
  | str (s : String)
  | num (n : Int)
  | boolean (b : Bool)
  | null
deriving DecidableEq, Repr

/-- zod's name for the received type, used in its default invalid-type
message (`"Expected string, received number"` etc.). -/
def jvalueTypeName : JValue → String
  | .str _ => "string"
  | .num _ => "number"
  | .boolean _ => "boolean"
  | .null => "null"

/-- A request body: a record of named JSON fields (`req.body`). -/
abbrev Body := List (String × JValue)

/-! ### The phone check: `.regex(/^\(\d{2}\) \d{5}-\d{4}$/)` (line 29) -/

/-- The anchored regex `^\(\d{2}\) \d{5}-\d{4}$` on the character list of the
candidate string: a literal `(`, two digits, `) `, five digits, `-`, four
digits, and nothing else. -/
def validTelefoneL : List Char → Bool
  | ['(', a, b, ')', ' ', c, d, e, f, g, '-', h, i, j, k] =>
      a.isDigit && b.isDigit && c.isDigit && d.isDigit && e.isDigit &&
      f.isDigit && g.isDigit && h.isDigit && i.isDigit && j.isDigit && k.isDigit
  | _ => false

/-- `telefone` passes the zod `.regex` check iff the whole string matches. -/
def validTelefone (s : String) : Bool :=
  validTelefoneL s.data

/-! ### The email check: `.email()` (line 26)

zod (v3.23, the version introducing the `{ message: ... }` shorthand used at
lines 22 and 25) validates emails with the anchored regex

  `/^(?!\.)(?!.*\.\.)([A-Za-z0-9_'+\-\.]*)[A-Za-z0-9_+-]@([A-Za-z0-9][A-Za-z0-9\-]*\.)+[A-Za-z]{2,}$/`

i.e. a non-empty local part over letters, digits, `_`, `'`, `+`, `-`, `.`
whose last character is not a dot or apostrophe, not starting with a dot and
with no `..` anywhere, then `@`, then one or more labels (alphanumeric start,
then alphanumerics and `-`) each followed by a dot, ending in an alphabetic
top-level domain of length at least 2. -/

/-- The apostrophe character, admitted in the local part of an email. -/
def apChar : Char := Char.ofNat 39

/-- Characters admitted anywhere in the local part of an email. -/
def isEmailLocalChar (c : Char) : Bool :=
  c.isAlpha || c.isDigit || c = '_' || c = apChar || c = '+' || c = '-' || c = '.'

/-- Characters admitted as the final character of the local part. -/
def isEmailLocalLast (c : Char) : Bool :=
  c.isAlpha || c.isDigit || c = '_' || c = '+' || c = '-'

/-- Does the character list contain two consecutive dots?  (The regex's
`(?!.*\.\.)` negative lookahead.) -/
def hasDotDot : List Char → Bool
  | '.' :: '.' :: _ => true
  | _ :: rest => hasDotDot rest
  | [] => false

/-- Split a character list at its first `@`, if any. -/
def splitAtSign : List Char → Option (List Char × List Char)
  | [] => none
  | c :: rest =>
      if c = '@' then some ([], rest)
      else (splitAtSign rest).map (fun p => (c :: p.1, p.2))

/-- Characters admitted after the first character of a domain label. -/
def isDomainChar (c : Char) : Bool :=
  c.isAlpha || c.isDigit || c = '-'

/-- A domain label: `[A-Za-z0-9][A-Za-z0-9-]*`. -/
def validLabel : List Char → Bool
  | [] => false
  | c :: rest => (c.isAlpha || c.isDigit) && rest.all isDomainChar

/-- The final top-level domain: `[A-Za-z]{2,}`. -/
def validTld (cs : List Char) : Bool :=
  decide (2 ≤ cs.length) && cs.all Char.isAlpha

/-- The domain part: `([A-Za-z0-9][A-Za-z0-9-]*\.)+[A-Za-z]{2,}`. -/
def validDomain (cs : List Char) : Bool :=
  match (cs.splitOn '.').reverse with
  | [] => false
  | tld :: labels => validTld tld && decide (1 ≤ labels.length) && labels.all validLabel

/-- zod's email regex as a predicate on the candidate string. -/
def validEmail (s : String) : Bool :=
  let cs := s.data
  !(hasDotDot cs) &&
  (match cs with
   | '.' :: _ => false
   | _ => true) &&
  (match splitAtSign cs with
   | some (lp, dom) =>
       !(lp.isEmpty) && lp.all isEmailLocalChar &&
       (match lp.getLast? with
        | some c => isEmailLocalLast c
        | none => false) &&
       validDomain dom
   | none => false)

/-! ### The schema `contatoSchema` (lines 21-30) -/

/-- Custom message of `z.string({ message: ... })` for `nome` (line 22):
produced when the field is absent or not a string. -/
def nomeRequiredMsg : String := "Campo nome é obrigatório"

/-- Message of `.min(3, ...)` for `nome` (line 23). -/
def nomeMinMsg : String := "O nome deve ter no mínimo 03 caracteres."

/-- Custom message of `z.string({ message: ... })` for `email` (line 25). -/
def emailRequiredMsg : String := "Campo e-mail é obrigatório."

/-- Message of `.email(...)` for `email` (line 26). -/
def emailInvalidMsg : String := "Deve ser um e-mail válido."

/-- Message of `.regex(...)` for `telefone` (line 29). -/
def telefoneInvalidMsg : String := "Deve enviar um telefone válido"

/-- zod's default message when a field with no custom message is absent. -/
def requiredMsg : String := "Required"

/-- zod's default invalid-type message for `z.string()` with no custom
message, as for `telefone` (line 28). -/
def expectedStringMsg (v : JValue) : String :=
  "Expected string, received " ++ jvalueTypeName v

/-- Field `nome`: `z.string({...}).min(3, {...})`.  A type error aborts the
chain; a string shorter than 3 fails the `.min` check. -/
def parseNome : Option JValue → Except String String
  | some (.str s) => if s.length < 3 then .error nomeMinMsg else .ok s
  | _ => .error nomeRequiredMsg

/-- Field `email`: `z.string({...}).email({...})`. -/
def parseEmail : Option JValue → Except String String
  | some (.str s) => if validEmail s then .ok s else .error emailInvalidMsg
  | _ => .error emailRequiredMsg

/-- Field `telefone`: `z.string().regex(...)`. -/
def parseTelefone : Option JValue → Except String String
  | some (.str s) => if validTelefone s then .ok s else .error telefoneInvalidMsg
  | some v => .error (expectedStringMsg v)
  | none => .error requiredMsg

/-- A validated contact, with the three fields in the order the handler
passes them to `Contato.create` (line 58). -/
structure ContatoRecord where
  nome : String
  telefone : String
  email : String
deriving DecidableEq, Repr

/-- Result of `contatoSchema.safeParse`: parsed data, or the messages of the
collected issues (`resultado.error.issues.map(issue => issue.message)`). -/
inductive ParseResult where
  | ok (data : ContatoRecord)
  | err (messages : List String)
deriving DecidableEq, Repr

/-- The issue messages contributed by one field. -/
def errsOf : Except String String → List String
  | .error m => [m]
  | .ok _ => []

/-- `contatoSchema.safeParse(body)`: zod checks every field of the shape in
declaration order (`nome`, `email`, `telefone`) and collects all issues; the
parse succeeds iff no field produced one. -/
def safeParse (body : Body) : ParseResult :=
  match parseNome (body.lookup "nome"), parseEmail (body.lookup "email"),
        parseTelefone (body.lookup "telefone") with
  | .ok n, .ok e, .ok t => .ok ⟨n, t, e⟩
  | rn, re, rt => .err (errsOf rn ++ errsOf re ++ errsOf rt)

/-- The messages of a parse result (empty on success). -/
def parseErrors : ParseResult → List String
  | .ok _ => []
  | .err ms => ms

/-! ### The request handlers (lines 42-72) -/

/-- Outcome of the external `Contato.create` call: the insert succeeds, or
the returned promise rejects with an error (e.g. connection loss). -/
inductive CreateOutcome where
  | ok
  | fail (e : String)
deriving DecidableEq, Repr

/-- Outcome of the external `Contato.findAll` call. -/
inductive FindAllOutcome where
  | ok (contatos : List ContatoRecord)
  | fail (e : String)
deriving DecidableEq, Repr

/-- What a handler sends to the client: a rendered view (`res.render`) or a
plain body with a status (`res.send`, status 200 unless set). -/
inductive Reply where
  | renderIndex
  | renderContatos (contatos : List ContatoRecord)
  | send (status : Nat) (body : String)
deriving DecidableEq, Repr

/-- How a handler terminates: with a reply, or — for an `async` handler with
no try/catch around an `await` that rejects — with the rejection escaping the
handler (Express 4 does not catch it), so no response is produced by the
handler. -/
inductive HandlerResult where
  | reply (r : Reply)
  | escaped (e : String)
deriving DecidableEq, Repr

/-- Success message of `POST /` (line 59). -/
def successMsg : String := "Contato salvo com sucesso"

/-- What `POST /` did: the arguments of every `Contato.create` call it made,
and how it terminated. -/
structure PostOutcome where
  createCalls : List ContatoRecord
  result : HandlerResult
deriving DecidableEq, Repr

/-- The `POST /` handler (lines 47-61), threading the store contents.
On validation failure: status 400 with the issue messages joined by `"; "`,
no `create` call.  On success: one `Contato.create({nome, telefone, email})`
call; if it resolves, `res.send` of the success message (status 200); if it
rejects, the rejection escapes the handler (there is no try/catch), so the
store is unchanged and no response is sent by the handler. -/
def runPost (st : List ContatoRecord) (body : Body) (co : CreateOutcome) :
    List ContatoRecord × PostOutcome :=
  match safeParse body with
  | .err msgs => (st, ⟨[], .reply (.send 400 (String.intercalate "; " msgs))⟩)
  | .ok data =>
      match co with
      | .ok => (st ++ [data], ⟨[data], .reply (.send 200 successMsg)⟩)
      | .fail e => (st, ⟨[data], .escaped e⟩)

/-- Generic client-facing message of `GET /contatos` on failure (line 70). -/
def findAllErrorMsg : String := "Erro ao buscar contatos."

/-- What `GET /contatos` did: its reply and its `console.error` output. -/
structure GetContatosOutcome where
  result : HandlerResult
  console : List String
deriving DecidableEq, Repr

/-- The `GET /contatos` handler (lines 64-72): renders the `findAll` result;
on failure the catch block logs the error to the console and sends a generic
500. -/
def getContatos : FindAllOutcome → GetContatosOutcome
  | .ok cs => ⟨.reply (.renderContatos cs), []⟩
  | .fail e => ⟨.reply (.send 500 findAllErrorMsg), ["Erro ao buscar contatos: " ++ e]⟩

/-! ### The logging middleware (lines 10-18) and the full request pipeline -/

/-- Outcome of the `fs.appendFile` of the access-log line. -/
inductive LogOutcome where
  | ok
  | fail (e : String)
deriving DecidableEq, Repr

/-- The three routes of the app. -/
inductive Route where
  | indexGet
  | indexPost (body : Body)
  | contatosGet
deriving DecidableEq, Repr

/-- `req.method` of a route. -/
def routeMethod : Route → String
  | .indexGet => "GET"
  | .indexPost _ => "POST"
  | .contatosGet => "GET"

/-- `req.originalUrl` of a route. -/
def routePath : Route → String
  | .indexGet => "/"
  | .indexPost _ => "/"
  | .contatosGet => "/contatos"

/-- The access-log line (line 11); `now` stands for
`new Date().toISOString()`. -/
def logLine (now : String) (r : Route) : String :=
  now ++ " - " ++ routeMethod r ++ " " ++ routePath r ++ "\n"

/-- Console message of the middleware when the append fails (line 14). -/
def logErrorMsg (e : String) : String :=
  "Erro ao escrever no arquivo de log: " ++ e

/-- The observable result of one full request: store contents, access-log
file contents, console output, and how the handler terminated. -/
structure AppResult where
  store : List ContatoRecord
  logFile : List String
  console : List String
  result : HandlerResult
deriving DecidableEq, Repr

/-- One full request through the app: the logging middleware appends the
access-log line (reporting a failure to the console only) and calls `next()`
unconditionally, then the route's handler runs. -/
def handleRequest (now : String) (lo : LogOutcome) (route : Route)
    (st : List ContatoRecord) (lf : List String)
    (co : CreateOutcome) (fo : FindAllOutcome) : AppResult :=
  let lf2 := match lo with
    | .ok => lf ++ [logLine now route]
    | .fail _ => lf
  let mwConsole := match lo with
    | .ok => ([] : List String)
    | .fail e => [logErrorMsg e]
  match route with
  | .indexGet => ⟨st, lf2, mwConsole, .reply .renderIndex⟩
  | .indexPost body =>
      ⟨(runPost st body co).1, lf2, mwConsole, (runPost st body co).2.result⟩
  | .contatosGet =>
      ⟨st, lf2, mwConsole ++ (getContatos fo).console, (getContatos fo).result⟩

/-- A sequence of `POST /` submissions in which every `create` resolves,
folded over the store contents. -/
def runPosts (st : List ContatoRecord) (bodies : List Body) : List ContatoRecord :=
  bodies.foldl (fun s b => (runPost s b .ok).1) st

/-! ### Concrete inputs used in the spec's examples -/

/-- The spec's example of a valid submission. -/
def anaBody : Body :=
  [("nome", .str "Ana Silva"), ("email", .str "ana@example.com"),
   ("telefone", .str "(11) 91234-5678")]

/-- The contact record of `anaBody`, in `create`-argument order. -/
def anaRecord : ContatoRecord := ⟨"Ana Silva", "(11) 91234-5678", "ana@example.com"⟩

/-- The spec's example of a submission failing all three checks. -/
def badBody : Body :=
  [("nome", .str "Al"), ("email", .str "bad"), ("telefone", .str "123")]

/-! ### The claim predicates on single fields (as the spec phrases them) -/

/-- `nome` is rejected: absent, non-string, or shorter than 3 characters. -/
def nomeRejected : Option JValue → Bool
  | some (.str s) => decide (s.length < 3)
  | _ => true

/-- `email` is rejected: absent, non-string, or not syntactically valid. -/
def emailRejected : Option JValue → Bool
  | some (.str s) => !(validEmail s)
  | _ => true

/-- `telefone` is rejected: absent, non-string, or not an exact match of the
phone pattern. -/
def telefoneRejected : Option JValue → Bool
  | some (.str s) => !(validTelefone s)
  | _ => true

/-! ### Helper lemmas about the field parsers -/

lemma parseNome_error_of_rejected (v : Option JValue) (h : nomeRejected v = true) :
    ∃ m, parseNome v = .error m := by
  rcases v with _ | j
  · exact ⟨_, rfl⟩
  · rcases j with s | n | b | _
    · simp only [nomeRejected, decide_eq_true_eq] at h
      exact ⟨nomeMinMsg, by simp [parseNome, h]⟩
    all_goals exact ⟨_, rfl⟩

lemma parseEmail_error_of_rejected (v : Option JValue) (h : emailRejected v = true) :
    ∃ m, parseEmail v = .error m := by
  rcases v with _ | j
  · exact ⟨_, rfl⟩
  · rcases j with s | n | b | _
    · simp only [emailRejected, Bool.not_eq_eq_eq_not, Bool.not_true] at h
      exact ⟨emailInvalidMsg, by simp [parseEmail, h]⟩
    all_goals exact ⟨_, rfl⟩

lemma parseTelefone_error_of_rejected (v : Option JValue) (h : telefoneRejected v = true) :
    ∃ m, parseTelefone v = .error m := by
  rcases v with _ | j
  · exact ⟨_, rfl⟩
  · rcases j with s | n | b | _
    · simp only [telefoneRejected, Bool.not_eq_eq_eq_not, Bool.not_true] at h
      exact ⟨telefoneInvalidMsg, by simp [parseTelefone, h]⟩
    all_goals exact ⟨_, rfl⟩

lemma parseNome_ok (v : Option JValue) (s : String) (h : parseNome v = .ok s) :
    v = some (.str s) ∧ ¬ s.length < 3 := by
  rcases v with _ | j
  · simp [parseNome] at h
  · rcases j with s' | n | b | _
    · by_cases hl : s'.length < 3
      · simp [parseNome, hl] at h
      · simp [parseNome, hl] at h
        subst h
        exact ⟨rfl, hl⟩
    all_goals simp [parseNome] at h

lemma parseEmail_ok (v : Option JValue) (s : String) (h : parseEmail v = .ok s) :
    v = some (.str s) ∧ validEmail s = true := by
  rcases v with _ | j
  · simp [parseEmail] at h
  · rcases j with s' | n | b | _
    · by_cases hl : validEmail s' = true
      · simp [parseEmail, hl] at h
        subst h
        exact ⟨rfl, hl⟩
      · simp [parseEmail, hl] at h
    all_goals simp [parseEmail] at h

lemma parseTelefone_ok (v : Option JValue) (s : String) (h : parseTelefone v = .ok s) :
    v = some (.str s) ∧ validTelefone s = true := by
  rcases v with _ | j
  · simp [parseTelefone] at h
  · rcases j with s' | n | b | _
    · by_cases hl : validTelefone s' = true
      · simp [parseTelefone, hl] at h
        subst h
        exact ⟨rfl, hl⟩
      · simp [parseTelefone, hl] at h
    all_goals simp [parseTelefone] at h

lemma safeParse_err_cases (body : Body)
    (h : (∃ m, parseNome (body.lookup "nome") = .error m) ∨
         (∃ m, parseEmail (body.lookup "email") = .error m) ∨
         (∃ m, parseTelefone (body.lookup "telefone") = .error m)) :
    ∃ msgs, safeParse body = .err msgs := by
  rcases hn : parseNome (body.lookup "nome") with m1 | s1 <;>
  rcases he : parseEmail (body.lookup "email") with m2 | s2 <;>
  rcases ht : parseTelefone (body.lookup "telefone") with m3 | s3 <;>
    simp_all [safeParse]

lemma safeParse_ok_fields (body : Body) (d : ContatoRecord)
    (h : safeParse body = .ok d) :
    body.lookup "nome" = some (.str d.nome) ∧
    body.lookup "telefone" = some (.str d.telefone) ∧
    body.lookup "email" = some (.str d.email) := by
  rcases hn : parseNome (body.lookup "nome") with m1 | s1 <;>
  rcases he : parseEmail (body.lookup "email") with m2 | s2 <;>
  rcases ht : parseTelefone (body.lookup "telefone") with m3 | s3 <;>
    simp only [safeParse, hn, he, ht, reduceCtorEq, ParseResult.ok.injEq] at h
  subst h
  exact ⟨(parseNome_ok _ _ hn).1, (parseTelefone_ok _ _ ht).1, (parseEmail_ok _ _ he).1⟩

/-! ### The claims -/

/-- C1.  The `POST /` handler has no try/catch around `Contato.create`, so
when a valid submission's `create` call fails, the rejection escapes the
handler: the handler sends no response at all (in particular no generic 500),
contradicting the spec.  The store is left unchanged (no partial contact),
and the single `create` call was made with the submitted fields. -/
theorem create_failure_escapes_handler :
    (runPost [] anaBody (.fail "connection lost")).2.result
        = .escaped "connection lost" ∧
    (runPost [] anaBody (.fail "connection lost")).1 = [] ∧
    (runPost [] anaBody (.fail "connection lost")).2.createCalls = [anaRecord] := by
  decide

/-- C2.  Whenever `nome` is absent, non-string or shorter than 3 characters,
or `email` is absent, non-string or not a syntactically valid email, or
`telefone` does not match the phone pattern exactly, `POST /` makes no
`Contato.create` call, leaves the store unchanged, and replies with status
400 — whatever the (unconsulted) store outcome would have been. -/
theorem invalid_submission_no_create (body : Body) (co : CreateOutcome)
    (st : List ContatoRecord)
    (h : nomeRejected (body.lookup "nome") = true ∨
         emailRejected (body.lookup "email") = true ∨
         telefoneRejected (body.lookup "telefone") = true) :
    (runPost st body co).1 = st ∧
    (runPost st body co).2.createCalls = [] ∧
    ∃ msg, (runPost st body co).2.result = .reply (.send 400 msg) := by
  obtain ⟨msgs, hm⟩ : ∃ msgs, safeParse body = .err msgs := by
    apply safeParse_err_cases
    rcases h with h | h | h
    · exact .inl (parseNome_error_of_rejected _ h)
    · exact .inr (.inl (parseEmail_error_of_rejected _ h))
    · exact .inr (.inr (parseTelefone_error_of_rejected _ h))
  simp [runPost, hm]

/-- Witness for C2 at the spec's failing example `badBody`. -/
theorem invalid_submission_no_create_witness :
    (runPost [] badBody .ok).1 = [] ∧
    (runPost [] badBody .ok).2.createCalls = [] ∧
    ∃ msg, (runPost [] badBody .ok).2.result = .reply (.send 400 msg) :=
  invalid_submission_no_create badBody .ok [] (.inl (by decide))

/-- C3.  When all three fields pass validation, `POST /` makes exactly one
`Contato.create` call with exactly the validated field values, appends that
contact to the store, and (the create resolving) replies with status 200 and
the success message. -/
theorem valid_submission_creates_once (body : Body) (st : List ContatoRecord)
    (n e t : String)
    (hn : body.lookup "nome" = some (.str n)) (hn3 : ¬ n.length < 3)
    (he : body.lookup "email" = some (.str e)) (hev : validEmail e = true)
    (ht : body.lookup "telefone" = some (.str t)) (htv : validTelefone t = true) :
    (runPost st body .ok).2.createCalls = [⟨n, t, e⟩] ∧
    (runPost st body .ok).2.result = .reply (.send 200 successMsg) ∧
    (runPost st body .ok).1 = st ++ [⟨n, t, e⟩] := by
  have hp : safeParse body = .ok ⟨n, t, e⟩ := by
    simp [safeParse, parseNome, parseEmail, parseTelefone, hn, he, ht, hn3, hev, htv]
  simp [runPost, hp]

/-- Witness for C3 at the spec's valid example `anaBody`. -/
theorem valid_submission_creates_once_witness :
    (runPost [] anaBody .ok).2.createCalls = [anaRecord] ∧
    (runPost [] anaBody .ok).2.result = .reply (.send 200 successMsg) ∧
    (runPost [] anaBody .ok).1 = [] ++ [anaRecord] :=
  valid_submission_creates_once anaBody [] "Ana Silva" "ana@example.com"
    "(11) 91234-5678" (by decide) (by decide) (by decide) (by decide)
    (by decide) (by decide)

/-- C4.  The validator collects the issues of all failing fields (no
short-circuit) in declaration order `nome`, `email`, `telefone`; the spec's
example `badBody` yields exactly the three messages in that order, and the
400 response body joins them with `"; "`. -/
theorem errors_collected_in_order :
    (∀ body : Body,
      parseErrors (safeParse body) =
        errsOf (parseNome (body.lookup "nome")) ++
        errsOf (parseEmail (body.lookup "email")) ++
        errsOf (parseTelefone (body.lookup "telefone"))) ∧
    safeParse badBody = .err [nomeMinMsg, emailInvalidMsg, telefoneInvalidMsg] ∧
    (runPost [] badBody .ok).2.result = .reply (.send 400
      "O nome deve ter no mínimo 03 caracteres.; Deve ser um e-mail válido.; Deve enviar um telefone válido") := by
  refine ⟨?_, by decide, by decide⟩
  intro body
  rcases hn : parseNome (body.lookup "nome") with m1 | s1 <;>
  rcases he : parseEmail (body.lookup "email") with m2 | s2 <;>
  rcases ht : parseTelefone (body.lookup "telefone") with m3 | s3 <;>
    simp [safeParse, parseErrors, errsOf, hn, he, ht]

/-- The spec's description of the phone pattern, stated independently of the
implementation: the whole string is a literal `(`, two digits, `) `, five
digits, `-`, four digits. -/
def phoneSpecMatch (s : String) : Prop :=
  ∃ a b c d e f g h i j k : Char,
    (a.isDigit && b.isDigit && c.isDigit && d.isDigit && e.isDigit &&
     f.isDigit && g.isDigit && h.isDigit && i.isDigit && j.isDigit &&
     k.isDigit) = true ∧
    s.data = ['(', a, b, ')', ' ', c, d, e, f, g, '-', h, i, j, k]

/-- C5.  The phone check is an exact full-string match of the pattern (no
partial match, no trimming): it accepts a string iff the string is exactly of
the shape `(DD) DDDDD-DDDD`; in particular the spec's two examples — missing
parentheses, and mismatched digit groups — are rejected. -/
theorem telefone_exact_match :
    (∀ s : String, validTelefone s = true ↔ phoneSpecMatch s) ∧
    validTelefone "11 91234-5678" = false ∧
    validTelefone "(11) 9123-45678" = false := by
  refine ⟨?_, by decide, by decide⟩
  intro s
  constructor
  · intro hv
    simp only [validTelefone] at hv
    rw [validTelefoneL.eq_def] at hv
    split at hv
    · next a b c d e f g h i j k heq =>
        exact ⟨a, b, c, d, e, f, g, h, i, j, k, hv, heq⟩
    · exact absurd hv (by simp)
  · rintro ⟨a, b, c, d, e, f, g, h, i, j, k, hall, hdata⟩
    simp only [validTelefone]
    rw [hdata]
    simpa [validTelefoneL] using hall

/-- C6.  `GET /contatos` takes no input: on `findAll` success it renders the
returned list as-is with no console output; on failure it logs the error to
the console and replies with a generic 500 whose body does not depend on the
underlying error. -/
theorem contatos_renders_or_generic_500 :
    (∀ cs, getContatos (.ok cs) = ⟨.reply (.renderContatos cs), []⟩) ∧
    (∀ e, getContatos (.fail e) =
      ⟨.reply (.send 500 findAllErrorMsg), ["Erro ao buscar contatos: " ++ e]⟩) ∧
    (∀ e1 e2, (getContatos (.fail e1)).result = (getContatos (.fail e2)).result) :=
  ⟨fun _ => rfl, fun _ => rfl, fun _ _ => rfl⟩

/-- C7.  A failure of the access-log append changes nothing the client can
see: for every route and store/create/findAll outcome, the handler result and
the store are identical to the all-log-writes-succeed run; the failure only
adds a message on the operator console, and the log file is left alone. -/
theorem log_failure_invisible_to_client (now e : String) (route : Route)
    (st : List ContatoRecord) (lf : List String)
    (co : CreateOutcome) (fo : FindAllOutcome) :
    (handleRequest now (.fail e) route st lf co fo).result =
      (handleRequest now .ok route st lf co fo).result ∧
    (handleRequest now (.fail e) route st lf co fo).store =
      (handleRequest now .ok route st lf co fo).store ∧
    (handleRequest now (.fail e) route st lf co fo).console =
      logErrorMsg e :: (handleRequest now .ok route st lf co fo).console ∧
    (handleRequest now (.fail e) route st lf co fo).logFile = lf := by
  rcases route <;> simp [handleRequest]

/-- Auxiliary for C8: a run of successful submissions appends exactly the
parsed records, in submission order. -/
lemma runPosts_eq_append (bodies : List Body) (datas : List ContatoRecord)
    (h : List.Forall₂ (fun b d => safeParse b = .ok d) bodies datas) :
    ∀ st, runPosts st bodies = st ++ datas := by
  induction h with
  | nil => intro st; simp [runPosts]
  | cons hbd hrest ih =>
      intro st
      rename_i b d bs ds
      have hstep : (runPost st b .ok).1 = st ++ [d] := by simp [runPost, hbd]
      calc runPosts st (b :: bs) = runPosts (runPost st b .ok).1 bs := rfl
        _ = runPosts (st ++ [d]) bs := by rw [hstep]
        _ = (st ++ [d]) ++ ds := ih (st ++ [d])
        _ = st ++ (d :: ds) := by simp

/-- C8.  Round-trip: after N submissions that each pass validation and whose
`create` each resolves, the `findAll`-based list view context holds exactly N
contacts, in order, and each contact's fields equal the submitted values. -/
theorem roundtrip_submitted_listed (bodies : List Body) (datas : List ContatoRecord)
    (h : List.Forall₂ (fun b d => safeParse b = .ok d) bodies datas) :
    runPosts [] bodies = datas ∧
    datas.length = bodies.length ∧
    (getContatos (.ok (runPosts [] bodies))).result = .reply (.renderContatos datas) ∧
    List.Forall₂ (fun (b : Body) (d : ContatoRecord) =>
      b.lookup "nome" = some (.str d.nome) ∧
      b.lookup "telefone" = some (.str d.telefone) ∧
      b.lookup "email" = some (.str d.email)) bodies datas := by
  have h1 : runPosts [] bodies = datas := by
    simpa using runPosts_eq_append bodies datas h []
  refine ⟨h1, (List.Forall₂.length_eq h).symm, by rw [h1]; rfl, ?_⟩
  exact h.imp (fun a b hbd => safeParse_ok_fields a b hbd)

/-- A second valid submission, for the C8 witness. -/
def ritaBody : Body :=
  [("nome", .str "Rita Souza"), ("email", .str "rita@example.com"),
   ("telefone", .str "(21) 99876-5432")]

/-- The contact record of `ritaBody`. -/
def ritaRecord : ContatoRecord := ⟨"Rita Souza", "(21) 99876-5432", "rita@example.com"⟩

/-- Witness for C8 with two concrete submissions. -/
theorem roundtrip_submitted_listed_witness :
    runPosts [] [anaBody, ritaBody] = [anaRecord, ritaRecord] ∧
    ([anaRecord, ritaRecord] : List ContatoRecord).length
      = ([anaBody, ritaBody] : List Body).length ∧
    (getContatos (.ok (runPosts [] [anaBody, ritaBody]))).result
      = .reply (.renderContatos [anaRecord, ritaRecord]) ∧
    List.Forall₂ (fun (b : Body) (d : ContatoRecord) =>
      b.lookup "nome" = some (.str d.nome) ∧
      b.lookup "telefone" = some (.str d.telefone) ∧
      b.lookup "email" = some (.str d.email))
      [anaBody, ritaBody] [anaRecord, ritaRecord] :=
  roundtrip_submitted_listed [anaBody, ritaBody] [anaRecord, ritaRecord]
    (.cons (by decide) (.cons (by decide) .nil))

/-- C9.  The validator is a pure, deterministic function of the request body:
equal inputs give equal results, and a run of the submit handler in which
validation fails leaves the store exactly as it was (the validator itself
performs no store call and no write). -/
theorem validator_pure_deterministic :
    (∀ x y : Body, x = y → safeParse x = safeParse y) ∧
    (∀ (body : Body) (st : List ContatoRecord) (co : CreateOutcome)
       (msgs : List String),
      safeParse body = .err msgs → (runPost st body co).1 = st) :=
  ⟨fun _ _ h => h ▸ rfl, fun body st co msgs h => by simp [runPost, h]⟩

/-- Witness for C9 at a concrete body. -/
theorem validator_pure_deterministic_witness :
    safeParse badBody = safeParse badBody ∧ (runPost [] badBody .ok).1 = [] :=
  ⟨validator_pure_deterministic.1 badBody badBody rfl,
   validator_pure_deterministic.2 badBody [] .ok
     [nomeMinMsg, emailInvalidMsg, telefoneInvalidMsg] (by decide)⟩

/-- C10.  The submit handler's outcome depends only on the `nome`, `email`
and `telefone` fields of the body: two bodies that agree on those three
fields give the same validation result and the same run (same store change,
same create calls — which carry only the three schema fields — and same
response). -/
theorem outcome_depends_only_on_schema_fields (b1 b2 : Body)
    (st : List ContatoRecord) (co : CreateOutcome)
    (hn : b1.lookup "nome" = b2.lookup "nome")
    (he : b1.lookup "email" = b2.lookup "email")
    (ht : b1.lookup "telefone" = b2.lookup "telefone") :
    safeParse b1 = safeParse b2 ∧ runPost st b1 co = runPost st b2 co := by
  have hp : safeParse b1 = safeParse b2 := by
    simp only [safeParse, hn, he, ht]
  exact ⟨hp, by simp only [runPost, hp]⟩

/-- The valid example body with an extra, non-schema field appended. -/
def anaBodyExtra : Body := anaBody ++ [("extra", .num 5)]

/-- Witness for C10: adding an extra field changes nothing. -/
theorem outcome_depends_only_on_schema_fields_witness :
    safeParse anaBody = safeParse anaBodyExtra ∧
    runPost [] anaBody .ok = runPost [] anaBodyExtra .ok :=
  outcome_depends_only_on_schema_fields anaBody anaBodyExtra [] .ok
    (by decide) (by decide) (by decide)

end ContatoApp
